import Mathlib

/-!
Shallow embedding of the coding-competition orchestration kernel
(`src/core/models.py`, `src/agents/*.py`, `src/workflow/competition_graph.py`).

Python dictionaries become Lean structures, in-place mutation becomes
explicit state passing, Python `int` becomes `Int`, Python float division
becomes division in `ℚ`, and a Python function that may raise is embedded
as a function into `Except String _`.  Values supplied by the wall clock
(`datetime.now()`) and by the language-model collaborator are passed in as
explicit parameters, so every definition is a pure, executable function of
its inputs.
-/

namespace CodingComp

/-- Embeds `CodeTest` from `src/core/models.py`: one public test case of a problem. -/
structure CodeTest where
  name : String
  input : String
  expected_output : String
deriving Repr, DecidableEq

/-- Embeds `CodingProblem` from `src/core/models.py`. -/
structure CodingProblem where
  id : String
  title : String
  entrypoint : String
  description : String
  public_tests : List CodeTest
deriving Repr, DecidableEq

/-- Embeds `CodeComplexity` from `src/core/models.py`. -/
structure CodeComplexity where
  time : String
  space : String
deriving Repr, DecidableEq

/-- Embeds `CodeSubmission` from `src/core/models.py`. -/
structure CodeSubmission where
  code : String
  language : String
  entrypoint : String
  explanation : Option String
  complexity : Option CodeComplexity
deriving Repr, DecidableEq

/-- Embeds `CompetitionMetrics` from `src/core/models.py` (run-level metrics stored
inside the shared state).  `start_time`/`end_time` are wall-clock values,
embedded as strings supplied by the caller. -/
structure CompetitionMetrics where
  total_tokens : Int
  api_calls_made : Int
  start_time : String
  end_time : Option String
  total_duration : Option ℚ
deriving Repr, DecidableEq

/-- Embeds `CodeReview` from `src/core/models.py`, before Pydantic validation:
the raw field values a model output decodes to.  Pydantic's bound checks
(`ge`/`le` on the six sub-scores, the `Literal` winner) are embedded
separately in `parse_review`. -/
structure CodeReview where
  coderA_correctness_score : Int
  coderA_efficiency_score : Int
  coderA_quality_score : Int
  coderA_feedback : String
  coderB_correctness_score : Int
  coderB_efficiency_score : Int
  coderB_quality_score : Int
  coderB_feedback : String
  round_winner : String
  summary : String
deriving Repr, DecidableEq

/-- Embeds `CompetitionState` from `src/core/models.py` (a `TypedDict`), plus the
two `last_coderX_submission` keys the coder agents add in their
`_post_process_result`.  The initializer in `competition_graph.py` populates
every key, so fields are total here; `next_agent`, the winners and
`memory_checkpoint_id` are `None`-able in the source and become `Option`. -/
structure CompetitionState where
  problems : List CodingProblem
  current_problem : Option CodingProblem
  context : String
  current_round : Int
  max_rounds : Int
  coderA_personality : String
  coderB_personality : String
  coderA_submissions : List CodeSubmission
  coderB_submissions : List CodeSubmission
  coderA_Score : Int
  coderB_Score : Int
  reviewer_comments : List String
  round_winner : Option String
  overall_winner : Option String
  metrics : CompetitionMetrics
  error_log : List String
  next_agent : Option String
  competition_status : String
  memory_thread_id : String
  memory_checkpoint_id : Option String
  conversation_context : String
  last_coderA_submission : Option CodeSubmission
  last_coderB_submission : Option CodeSubmission
deriving Repr, DecidableEq

/-- The five outcomes of `CodingCompetitionGraph._route_next`: the four node
names of the graph, or the `"end"` sentinel mapped to LangGraph's `END`. -/
inductive RouteTarget where
  | moderator
  | coderA
  | coderB
  | reviewer
  | endNode
deriving Repr, DecidableEq

/-- Embeds `CodingCompetitionGraph._route_next` from
`src/workflow/competition_graph.py`, lines 142-177.  A pure function of the
state: it only reads `next_agent` and `competition_status` and returns a
node name, mutating nothing (in particular it never touches
`current_round`). -/
def route_next (state : CompetitionState) : RouteTarget :=
  let next_agent := state.next_agent
  let competition_status := state.competition_status
  if competition_status = "error" then .endNode
  else if competition_status = "completed" ∨ next_agent = none then .endNode
  else if next_agent = some "moderator" then .moderator
  else if next_agent = some "coderA" then .coderA
  else if next_agent = some "coderB" then .coderB
  else if next_agent = some "reviewer" then .reviewer
  else .endNode

/-- Modelled from the spec, §4.4 Router, for comparison with `route_next`:
"1. If status is `error` → terminal.  2. Else if status is `completed` OR
next-agent is absent → terminal.  3. Else dispatch strictly by the value of
next-agent (one of the four role tokens); any other/unrecognized value →
terminal." -/
def routerSpec (state : CompetitionState) : RouteTarget :=
  if state.competition_status = "error" then .endNode
  else if state.competition_status = "completed" then .endNode
  else
    match state.next_agent with
    | none => .endNode
    | some tok =>
        if tok = "moderator" then .moderator
        else if tok = "coderA" then .coderA
        else if tok = "coderB" then .coderB
        else if tok = "reviewer" then .reviewer
        else .endNode

/-- Embeds `_update_conversation_context`, identical in each agent module up to the
role label; `ts` is the `datetime.now()` timestamp string. -/
def update_conversation_context (label ts message : String)
    (state : CompetitionState) : CompetitionState :=
  { state with conversation_context :=
      state.conversation_context ++ "\n[" ++ ts ++ "] " ++ label ++ ": " ++ message }

/-- Embeds `ModeratorAgent._post_process_result` from
`src/agents/moderator_agent.py`: append the generated problem, make it
current, hand over to CoderA, mark the competition active, note the choice
in the conversation context. -/
def moderator_post (ts : String) (result : CodingProblem)
    (state : CompetitionState) : CompetitionState :=
  let state1 := { state with
    problems := state.problems ++ [result],
    current_problem := some result,
    next_agent := some "coderA",
    competition_status := "active" }
  update_conversation_context "Moderator" ts
    ("Selected problem \x27" ++ result.title ++ "\x27 for round "
      ++ toString state1.current_round) state1

/-- Embeds `CoderAAgent._post_process_result` from `src/agents/coderA_agent.py`. -/
def coderA_post (ts : String) (result : CodeSubmission)
    (state : CompetitionState) : CompetitionState :=
  let state1 := { state with
    coderA_submissions := state.coderA_submissions ++ [result],
    next_agent := some "coderB",
    last_coderA_submission := some result }
  update_conversation_context "CoderA" ts
    ("Submitted code with entrypoint " ++ result.entrypoint) state1

/-- Embeds `CoderBAgent._post_process_result` from `src/agents/coderB_agent.py`. -/
def coderB_post (ts : String) (result : CodeSubmission)
    (state : CompetitionState) : CompetitionState :=
  let state1 := { state with
    coderB_submissions := state.coderB_submissions ++ [result],
    next_agent := some "reviewer",
    last_coderB_submission := some result }
  update_conversation_context "CoderB" ts
    ("Submitted code with entrypoint " ++ result.entrypoint) state1

/-- Embeds `ReviewerAgent._post_process_result` from
`src/agents/reviewer_agent.py`, lines 177-241, translated statement by
statement: fold the round scores into the running totals, append the audit
comment, record the round winner, note the outcome in the conversation
context, then either finish the competition (round ≥ max) or advance to the
next round. -/
def reviewer_post_process (ts : String) (result : CodeReview)
    (state : CompetitionState) : CompetitionState :=
  let coderA_round_score := result.coderA_correctness_score
    + result.coderA_efficiency_score + result.coderA_quality_score
  let coderB_round_score := result.coderB_correctness_score
    + result.coderB_efficiency_score + result.coderB_quality_score
  let state1 := { state with
    coderA_Score := state.coderA_Score + coderA_round_score,
    coderB_Score := state.coderB_Score + coderB_round_score }
  let review_comment :=
    "Round " ++ toString state1.current_round ++ " - CoderA: "
      ++ toString coderA_round_score ++ " points (" ++ result.coderA_feedback
      ++ "), CoderB: " ++ toString coderB_round_score ++ " points ("
      ++ result.coderB_feedback ++ ")"
  let state2 := { state1 with
    reviewer_comments := state1.reviewer_comments ++ [review_comment],
    round_winner := some result.round_winner }
  let state3 := update_conversation_context "Reviewer" ts
    ("Round " ++ toString state2.current_round ++ " winner: "
      ++ result.round_winner ++ ". Summary: " ++ result.summary) state2
  if state3.current_round ≥ state3.max_rounds then
    { state3 with
      overall_winner := some
        (if state3.coderA_Score > state3.coderB_Score then "coderA"
         else if state3.coderB_Score > state3.coderA_Score then "coderB"
         else "draw"),
      competition_status := "completed",
      next_agent := none }
  else
    { state3 with
      current_round := state3.current_round + 1,
      next_agent := some "moderator",
      competition_status := "preparing" }

/-- The bound checks Pydantic attaches to the six sub-score fields of
`CodeReview` (`ge=0, le=5` / `ge=0, le=3` / `ge=0, le=2`). -/
def scoreBounds (r : CodeReview) : Prop :=
  (0 ≤ r.coderA_correctness_score ∧ r.coderA_correctness_score ≤ 5)
  ∧ (0 ≤ r.coderA_efficiency_score ∧ r.coderA_efficiency_score ≤ 3)
  ∧ (0 ≤ r.coderA_quality_score ∧ r.coderA_quality_score ≤ 2)
  ∧ (0 ≤ r.coderB_correctness_score ∧ r.coderB_correctness_score ≤ 5)
  ∧ (0 ≤ r.coderB_efficiency_score ∧ r.coderB_efficiency_score ≤ 3)
  ∧ (0 ≤ r.coderB_quality_score ∧ r.coderB_quality_score ≤ 2)

instance (r : CodeReview) : Decidable (scoreBounds r) := by
  unfold scoreBounds
  exact inferInstance

/-- The `Literal["coderA", "coderB", "draw"]` constraint on
`CodeReview.round_winner`. -/
def winnerLiteral (w : String) : Prop :=
  w = "coderA" ∨ w = "coderB" ∨ w = "draw"

instance (w : String) : Decidable (winnerLiteral w) := by
  unfold winnerLiteral
  exact inferInstance

/-- Embeds `ReviewerAgent._parse_result`: the `PydanticOutputParser` either
validates the decoded field values into a `CodeReview` or raises a
validation error; Pydantic accepts exactly when every field constraint
holds. -/
def parse_review (r : CodeReview) : Option CodeReview :=
  if scoreBounds r ∧ winnerLiteral r.round_winner then some r else none

/-- The per-agent-instance `self.metrics` dictionary of
`BaseAgent.__init__`.  Times and rates are Python floats computed by exact
arithmetic on the counters, embedded in `ℚ`. -/
structure AgentMetrics where
  calls : Nat
  total_time : ℚ
  errors : Nat
  success_rate : ℚ
  tool_calls : Nat
deriving Repr, DecidableEq

/-- The initial value of `self.metrics`. -/
def initialMetrics : AgentMetrics :=
  { calls := 0, total_time := 0, errors := 0, success_rate := 1, tool_calls := 0 }

/-- The snapshot `BaseAgent.get_metrics` returns: the metrics dictionary
extended with the derived average execution time and the role label. -/
structure MetricsSnapshot where
  calls : Nat
  total_time : ℚ
  errors : Nat
  success_rate : ℚ
  tool_calls : Nat
  average_execution_time : ℚ
  role : String
deriving Repr, DecidableEq

/-- Embeds `BaseAgent.get_metrics` from `src/agents/base_agent.py`:
`avg_time = total_time / max(1, calls)`, returned together with a copy of
the raw counters and the role value. -/
def get_metrics (role : String) (m : AgentMetrics) : MetricsSnapshot :=
  { calls := m.calls, total_time := m.total_time, errors := m.errors,
    success_rate := m.success_rate, tool_calls := m.tool_calls,
    average_execution_time := m.total_time / max 1 (m.calls : ℚ),
    role := role }

/-- Embeds `BaseAgent.__call__` from `src/agents/base_agent.py`, lines 219-267:
the turn executor.  `act_result` is the outcome of the `try` body up to and
including `_post_process_result` — either the updated state or the message
of the exception that was raised; `dt` is the measured wall-clock duration
of the successful turn.  On success the call counter and total time advance
and the returned state gets `metrics.api_calls_made` bumped; on any
exception the error counter advances, the success rate is recomputed as
`(calls - errors) / max(1, calls)`, one formatted error string is appended
to the ledger, and the input state is returned with `competition_status`
forced to `"error"`.  The function is total: no exception escapes it. -/
def agent_call (role : String) (act_result : Except String CompetitionState)
    (dt : ℚ) (m : AgentMetrics) (state : CompetitionState) :
    AgentMetrics × CompetitionState :=
  let m1 := { m with calls := m.calls + 1 }
  match act_result with
  | .ok updated_state =>
      ({ m1 with total_time := m1.total_time + dt },
       { updated_state with metrics :=
          { updated_state.metrics with
              api_calls_made := updated_state.metrics.api_calls_made + 1 } })
  | .error e =>
      let m2 := { m1 with errors := m1.errors + 1 }
      let m3 := { m2 with success_rate :=
        ((m2.calls : ℚ) - (m2.errors : ℚ)) / max 1 (m2.calls : ℚ) }
      (m3, { state with
              error_log := state.error_log ++ [role ++ " Error: " ++ e],
              competition_status := "error" })

/-- The `try` body of a Moderator turn: the chain either raises (modelled
by `llm_out = .error e`) or yields a validated `CodingProblem` that
`_post_process_result` folds into the state. -/
def moderator_act (ts : String) (llm_out : Except String CodingProblem)
    (state : CompetitionState) : Except String CompetitionState :=
  match llm_out with
  | .error e => .error e
  | .ok p => .ok (moderator_post ts p state)

/-- The `try` body of a CoderA turn. -/
def coderA_act (ts : String) (llm_out : Except String CodeSubmission)
    (state : CompetitionState) : Except String CompetitionState :=
  match llm_out with
  | .error e => .error e
  | .ok sub => .ok (coderA_post ts sub state)

/-- The `try` body of a CoderB turn. -/
def coderB_act (ts : String) (llm_out : Except String CodeSubmission)
    (state : CompetitionState) : Except String CompetitionState :=
  match llm_out with
  | .error e => .error e
  | .ok sub => .ok (coderB_post ts sub state)

/-- The `try` body of a Reviewer turn: the raw model output (when the model
call itself did not fail) passes through `_parse_result`, whose Pydantic
validation either yields a bounded `CodeReview` for
`_post_process_result` or raises a validation error that becomes the
turn's exception. -/
def reviewer_act (ts : String) (llm_out : Except String CodeReview)
    (state : CompetitionState) : Except String CompetitionState :=
  match llm_out with
  | .error e => .error e
  | .ok raw =>
      match parse_review raw with
      | some r => .ok (reviewer_post_process ts r state)
      | none => .error "validation error for CodeReview"

/-- A full Moderator turn through the executor; the role value of
`AgentRole.ROUND_CONTROLLER` is `"roundcontroller"`. -/
def moderator_turn (ts : String) (llm_out : Except String CodingProblem)
    (dt : ℚ) (m : AgentMetrics) (state : CompetitionState) :
    AgentMetrics × CompetitionState :=
  agent_call "roundcontroller" (moderator_act ts llm_out state) dt m state

/-- A full CoderA turn through the executor (`AgentRole.CODER` = `"coder"`). -/
def coderA_turn (ts : String) (llm_out : Except String CodeSubmission)
    (dt : ℚ) (m : AgentMetrics) (state : CompetitionState) :
    AgentMetrics × CompetitionState :=
  agent_call "coder" (coderA_act ts llm_out state) dt m state

/-- A full CoderB turn through the executor (`AgentRole.CODER` = `"coder"`). -/
def coderB_turn (ts : String) (llm_out : Except String CodeSubmission)
    (dt : ℚ) (m : AgentMetrics) (state : CompetitionState) :
    AgentMetrics × CompetitionState :=
  agent_call "coder" (coderB_act ts llm_out state) dt m state

/-- A full Reviewer turn through the executor
(`AgentRole.REVIEWER` = `"reviewer"`). -/
def reviewer_turn (ts : String) (llm_out : Except String CodeReview)
    (dt : ℚ) (m : AgentMetrics) (state : CompetitionState) :
    AgentMetrics × CompetitionState :=
  agent_call "reviewer" (reviewer_act ts llm_out state) dt m state

/-- Embeds `ToolMessage` as `BaseAgent._execute_tool` builds it: the content
string and the echoed tool-call id. -/
structure ToolMessage where
  content : String
  tool_call_id : Option String
deriving Repr, DecidableEq

/-- The behaviour of one named tool: given the (serialized) argument map,
`invoke` either returns a result string or raises. -/
def ToolFun : Type := String → Except String String

/-- Embeds `BaseAgent._execute_tool` from `src/agents/base_agent.py`, lines
96-137.  `tool_map` embeds `self.tool_map` (name → tool, or absent);
`tool_calls` is the current value of `self.metrics["tool_calls"]`, and the
second component of the result is its value afterwards: it is incremented
exactly when the tool is found and its invocation returns normally. -/
def execute_tool (tool_map : String → Option ToolFun)
    (tool_name tool_args : String) (tool_call_id : Option String)
    (tool_calls : Nat) : ToolMessage × Nat :=
  match tool_map tool_name with
  | none =>
      ({ content := "Error: Tool \x27" ++ tool_name ++ "\x27 not found",
         tool_call_id := tool_call_id }, tool_calls)
  | some tool_func =>
      match tool_func tool_args with
      | .ok result =>
          ({ content := result, tool_call_id := tool_call_id }, tool_calls + 1)
      | .error e =>
          ({ content := "Error executing " ++ tool_name ++ ": " ++ e,
             tool_call_id := tool_call_id }, tool_calls)

/-- One requested tool call as it reaches `_execute_tool`: name, argument
map and id. -/
structure ToolCallRequest where
  name : String
  args : String
  id : Option String
deriving Repr

/-- The loop of `BaseAgent._handle_tool_calls` over `llm_result.tool_calls`:
execute each call in order, collecting the tool messages and threading the
`tool_calls` counter. -/
def handle_tool_calls (tool_map : String → Option ToolFun)
    (calls : List ToolCallRequest) (tool_calls : Nat) :
    List ToolMessage × Nat :=
  match calls with
  | [] => ([], tool_calls)
  | c :: rest =>
      let step := execute_tool tool_map c.name c.args c.id tool_calls
      let restRun := handle_tool_calls tool_map rest step.2
      (step.1 :: restRun.1, restRun.2)

/-- Whether one requested tool call would succeed: its name is bound in the
tool map and the invocation returns normally. -/
def toolSucceeds (tool_map : String → Option ToolFun)
    (c : ToolCallRequest) : Bool :=
  match tool_map c.name with
  | none => false
  | some tool_func =>
      match tool_func c.args with
      | .ok _ => true
      | .error _ => false

/-- The run-level configuration `CodingCompetitionConfig` from
`src/core/models.py` (the fields the orchestration core reads). -/
structure CodingCompetitionConfig where
  max_rounds : Int
  model_name : String
  temperature : ℚ
  max_tokens : Int
  time_per_round : Int
  review_time : Int
  scoring_rules : List (String × Int)
deriving Repr, DecidableEq

/-- The default configuration values of `CodingCompetitionConfig`. -/
def defaultConfig : CodingCompetitionConfig :=
  { max_rounds := 3, model_name := "gpt-4o-mini", temperature := 7/10,
    max_tokens := 1500, time_per_round := 600, review_time := 300,
    scoring_rules := [("correctness", 5), ("efficiency", 3), ("code_quality", 2)] }

/-- Embeds `CompetitionMetrics()` with all defaults: zero counters, `start_time`
from the wall clock (parameter `now`), no end time, no duration. -/
def freshMetrics (now : String) : CompetitionMetrics :=
  { total_tokens := 0, api_calls_made := 0, start_time := now,
    end_time := none, total_duration := none }

/-- Embeds `CodingCompetitionGraph._initialize_state` from
`src/workflow/competition_graph.py`, lines 207-236.  `now` is the formatted
`datetime.now()` string used for the fresh run identifier
`memory_thread_id = "comp_" + now`, and `metricsNow` the clock value stored
in the fresh metrics record. -/
def initialize_state (config : CodingCompetitionConfig)
    (now metricsNow : String) : CompetitionState :=
  { problems := [],
    current_problem := none,
    context := "",
    current_round := 1,
    max_rounds := config.max_rounds,
    coderA_personality := "straightforward",
    coderB_personality := "resourceaware",
    coderA_submissions := [],
    coderB_submissions := [],
    coderA_Score := 0,
    coderB_Score := 0,
    reviewer_comments := [],
    round_winner := none,
    overall_winner := none,
    metrics := freshMetrics metricsNow,
    error_log := [],
    next_agent := some "moderator",
    competition_status := "preparing",
    memory_thread_id := "comp_" ++ now,
    memory_checkpoint_id := none,
    conversation_context := "",
    last_coderA_submission := none,
    last_coderB_submission := none }

/-- A concrete state for evaluating the theorems below: the initial state
of a run started at a fixed clock value. -/
def sampleState : CompetitionState :=
  initialize_state defaultConfig "20250101_120000" "2025-01-01 12:00:00"

/-- A concrete in-bounds review (the N=1 scenario of spec §8). -/
def sampleReview : CodeReview :=
  { coderA_correctness_score := 5, coderA_efficiency_score := 3,
    coderA_quality_score := 2, coderA_feedback := "clean and correct",
    coderB_correctness_score := 2, coderB_efficiency_score := 1,
    coderB_quality_score := 0, coderB_feedback := "fails edge cases",
    round_winner := "coderA", summary := "CoderA wins the round" }

/-- A concrete out-of-range review: correctness 6 exceeds the bound 5. -/
def badReview : CodeReview :=
  { sampleReview with coderA_correctness_score := 6 }

/-- C2: the router `_route_next` is a pure function of the state, decided in
the spec's order — `error` status is terminal; then `completed` status or an
absent next-agent token is terminal; otherwise it dispatches strictly on the
next-agent token being one of the four role tokens, any other value being
terminal.  `route_next` is the line-by-line embedding of the source;
`routerSpec` is modelled from the spec's words; they agree on every state.
Both are functions `CompetitionState → RouteTarget`, so the router mutates
nothing and in particular never changes `current_round`. -/
theorem route_next_matches_spec (s : CompetitionState) :
    route_next s = routerSpec s := by
  unfold route_next routerSpec
  cases h : s.next_agent with
  | none => simp [h]
  | some tok => by_cases he : s.competition_status = "error" <;>
      by_cases hc : s.competition_status = "completed" <;>
        simp [h, he, hc]

/-- C7: for every completed review, `_post_process_result` appends exactly
one audit string to the reviewer-comment history, formatted as
`"Round {n} - CoderA: {scoreA} points ({feedbackA}), CoderB: {scoreB} points
({feedbackB})"`, where `n` is the round under review, the scores are the two
solver round totals and `CoderA`/`CoderB` are the names of the two solver
roles. -/
theorem reviewer_comment_format (ts : String) (r : CodeReview)
    (s : CompetitionState) :
    (reviewer_post_process ts r s).reviewer_comments =
      s.reviewer_comments ++
        ["Round " ++ toString s.current_round ++ " - CoderA: "
          ++ toString (r.coderA_correctness_score + r.coderA_efficiency_score
              + r.coderA_quality_score)
          ++ " points (" ++ r.coderA_feedback ++ "), CoderB: "
          ++ toString (r.coderB_correctness_score + r.coderB_efficiency_score
              + r.coderB_quality_score)
          ++ " points (" ++ r.coderB_feedback ++ ")"] := by
  simp only [reviewer_post_process, update_conversation_context]
  split <;> rfl

/-- C8: `_initialize_state` produces the documented starting state — empty
problem and submission ledgers, no current problem, both running scores 0,
round 1, `max_rounds` from the configuration, status `"preparing"`,
next-agent the round-controller token `"moderator"`, empty reviewer-comment
and error ledgers, fresh zeroed metrics stamped with the start clock, and a
freshly generated run identifier derived from the clock value `now`. -/
theorem initialize_state_spec (config : CodingCompetitionConfig)
    (now metricsNow : String) :
    (initialize_state config now metricsNow).problems = []
    ∧ (initialize_state config now metricsNow).coderA_submissions = []
    ∧ (initialize_state config now metricsNow).coderB_submissions = []
    ∧ (initialize_state config now metricsNow).current_problem = none
    ∧ (initialize_state config now metricsNow).coderA_Score = 0
    ∧ (initialize_state config now metricsNow).coderB_Score = 0
    ∧ (initialize_state config now metricsNow).current_round = 1
    ∧ (initialize_state config now metricsNow).max_rounds = config.max_rounds
    ∧ (initialize_state config now metricsNow).competition_status = "preparing"
    ∧ (initialize_state config now metricsNow).next_agent = some "moderator"
    ∧ (initialize_state config now metricsNow).reviewer_comments = []
    ∧ (initialize_state config now metricsNow).error_log = []
    ∧ (initialize_state config now metricsNow).round_winner = none
    ∧ (initialize_state config now metricsNow).overall_winner = none
    ∧ (initialize_state config now metricsNow).metrics =
        { total_tokens := 0, api_calls_made := 0, start_time := metricsNow,
          end_time := none, total_duration := none }
    ∧ (initialize_state config now metricsNow).memory_thread_id = "comp_" ++ now := by
  refine ⟨rfl, rfl, rfl, rfl, rfl, rfl, rfl, rfl, rfl, rfl, rfl, rfl, rfl, rfl, rfl, rfl⟩

/-- Helper: the CoderA running total after a review is the old total plus
CoderA's three sub-scores. -/
theorem coderA_Score_after_review (ts : String) (r : CodeReview)
    (s : CompetitionState) :
    (reviewer_post_process ts r s).coderA_Score =
      s.coderA_Score + (r.coderA_correctness_score + r.coderA_efficiency_score
        + r.coderA_quality_score) := by
  simp only [reviewer_post_process, update_conversation_context]
  split <;> rfl

/-- Helper: the CoderB running total after a review is the old total plus
CoderB's three sub-scores. -/
theorem coderB_Score_after_review (ts : String) (r : CodeReview)
    (s : CompetitionState) :
    (reviewer_post_process ts r s).coderB_Score =
      s.coderB_Score + (r.coderB_correctness_score + r.coderB_efficiency_score
        + r.coderB_quality_score) := by
  simp only [reviewer_post_process, update_conversation_context]
  split <;> rfl

/-- Helper: after a review the competition status is `"completed"` or
`"preparing"`, depending only on the round comparison. -/
theorem status_after_review (ts : String) (r : CodeReview)
    (s : CompetitionState) :
    (reviewer_post_process ts r s).competition_status = "completed"
    ∨ (reviewer_post_process ts r s).competition_status = "preparing" := by
  simp only [reviewer_post_process, update_conversation_context]
  split
  · exact Or.inl rfl
  · exact Or.inr rfl

/-- Helper: a review accepted by the Pydantic parser is returned unchanged
and satisfies the score bounds. -/
theorem parse_review_sound (raw r : CodeReview)
    (h : parse_review raw = some r) : r = raw ∧ scoreBounds raw := by
  unfold parse_review at h
  split at h
  · rename_i hc
    cases h
    exact ⟨rfl, hc.1⟩
  · cases h

/-- C1: when the Reviewer completes its turn with
`current_round ≥ max_rounds`, the resulting state carries the overall
winner decided by strict comparison of the two updated running totals
(`coderA` if A>B, `coderB` if B>A, `draw` on exact equality), status
`"completed"` and no next agent; otherwise the round counter is
incremented by exactly 1, the next agent is the round-controller token
`"moderator"`, and the status is set back to `"preparing"`. -/
theorem reviewer_round_advance (ts : String) (r : CodeReview)
    (s : CompetitionState) :
    (if s.current_round ≥ s.max_rounds then
      (reviewer_post_process ts r s).overall_winner =
          some (if (reviewer_post_process ts r s).coderA_Score >
                    (reviewer_post_process ts r s).coderB_Score then "coderA"
            else if (reviewer_post_process ts r s).coderB_Score >
                    (reviewer_post_process ts r s).coderA_Score then "coderB"
            else "draw")
        ∧ (reviewer_post_process ts r s).competition_status = "completed"
        ∧ (reviewer_post_process ts r s).next_agent = none
        ∧ (reviewer_post_process ts r s).current_round = s.current_round
    else
      (reviewer_post_process ts r s).current_round = s.current_round + 1
        ∧ (reviewer_post_process ts r s).next_agent = some "moderator"
        ∧ (reviewer_post_process ts r s).competition_status = "preparing") := by
  by_cases h : s.current_round ≥ s.max_rounds <;>
    simp [reviewer_post_process, update_conversation_context, h]

/-- C4: the Reviewer's post-processing computes each solver's round total
as correctness + efficiency + quality, adds it to that solver's running
total (the new total is exactly the old total plus the round total — never
reset or replaced), and for any review within the validated bounds each
round total is at most 10. -/
theorem reviewer_score_folding (ts : String) (r : CodeReview)
    (s : CompetitionState) :
    (reviewer_post_process ts r s).coderA_Score =
      s.coderA_Score + (r.coderA_correctness_score + r.coderA_efficiency_score
        + r.coderA_quality_score)
    ∧ (reviewer_post_process ts r s).coderB_Score =
      s.coderB_Score + (r.coderB_correctness_score + r.coderB_efficiency_score
        + r.coderB_quality_score)
    ∧ (scoreBounds r →
        r.coderA_correctness_score + r.coderA_efficiency_score
          + r.coderA_quality_score ≤ 10
        ∧ r.coderB_correctness_score + r.coderB_efficiency_score
          + r.coderB_quality_score ≤ 10) := by
  refine ⟨coderA_Score_after_review ts r s, coderB_Score_after_review ts r s, ?_⟩
  intro hb
  obtain ⟨⟨a1, a2⟩, ⟨b1, b2⟩, ⟨c1, c2⟩, ⟨d1, d2⟩, ⟨e1, e2⟩, ⟨f1, f2⟩⟩ := hb
  omega

/-- C4 witness: at the §8 N=1 scenario review, the totals fold as computed
and the round totals stay within 10. -/
theorem reviewer_score_folding_witness :
    (reviewer_post_process "ts" sampleReview sampleState).coderA_Score = 0 + (5 + 3 + 2)
    ∧ (reviewer_post_process "ts" sampleReview sampleState).coderB_Score = 0 + (2 + 1 + 0)
    ∧ sampleReview.coderA_correctness_score + sampleReview.coderA_efficiency_score
        + sampleReview.coderA_quality_score ≤ 10 :=
  ⟨(reviewer_score_folding "ts" sampleReview sampleState).1,
   (reviewer_score_folding "ts" sampleReview sampleState).2.1,
   ((reviewer_score_folding "ts" sampleReview sampleState).2.2 (by decide)).1⟩

/-- C5: across every turn of the system — Moderator, CoderA, CoderB and
Reviewer, each run through the turn executor, whether the turn succeeds or
fails — both running score totals in the output state are greater than or
equal to their values in the input state. -/
theorem scores_monotone (ts : String) (dt : ℚ) (m : AgentMetrics)
    (s : CompetitionState) :
    (∀ out, s.coderA_Score ≤ (moderator_turn ts out dt m s).2.coderA_Score
      ∧ s.coderB_Score ≤ (moderator_turn ts out dt m s).2.coderB_Score)
    ∧ (∀ out, s.coderA_Score ≤ (coderA_turn ts out dt m s).2.coderA_Score
      ∧ s.coderB_Score ≤ (coderA_turn ts out dt m s).2.coderB_Score)
    ∧ (∀ out, s.coderA_Score ≤ (coderB_turn ts out dt m s).2.coderA_Score
      ∧ s.coderB_Score ≤ (coderB_turn ts out dt m s).2.coderB_Score)
    ∧ (∀ out, s.coderA_Score ≤ (reviewer_turn ts out dt m s).2.coderA_Score
      ∧ s.coderB_Score ≤ (reviewer_turn ts out dt m s).2.coderB_Score) := by
  refine ⟨?_, ?_, ?_, ?_⟩
  · intro out
    cases out with
    | ok p =>
        simp [moderator_turn, moderator_act, agent_call, moderator_post,
          update_conversation_context]
    | error e => simp [moderator_turn, moderator_act, agent_call]
  · intro out
    cases out with
    | ok sub =>
        simp [coderA_turn, coderA_act, agent_call, coderA_post,
          update_conversation_context]
    | error e => simp [coderA_turn, coderA_act, agent_call]
  · intro out
    cases out with
    | ok sub =>
        simp [coderB_turn, coderB_act, agent_call, coderB_post,
          update_conversation_context]
    | error e => simp [coderB_turn, coderB_act, agent_call]
  · intro out
    cases out with
    | ok raw =>
        cases hp : parse_review raw with
        | none => simp [reviewer_turn, reviewer_act, agent_call, hp]
        | some r =>
            obtain ⟨hr, hb⟩ := parse_review_sound raw r hp
            subst hr
            have hA := coderA_Score_after_review ts r s
            have hB := coderB_Score_after_review ts r s
            obtain ⟨⟨a1, a2⟩, ⟨b1, b2⟩, ⟨c1, c2⟩, ⟨d1, d2⟩, ⟨e1, e2⟩, ⟨f1, f2⟩⟩ := hb
            simp only [reviewer_turn, reviewer_act, hp, agent_call]
            constructor <;> simp only [hA, hB] <;> omega
    | error e => simp [reviewer_turn, reviewer_act, agent_call]

/-- C3: when an agent's turn body raises any exception, the turn executor
`BaseAgent.__call__` returns (rather than propagating the exception — the
embedded executor is a total function) a state whose error ledger has
exactly one new entry, the formatted string `role ++ " Error: " ++ message`,
whose `competition_status` is `"error"`, and whose every other field equals
the corresponding field of the input state; and this handler is the only
code path that ever produces the `"error"` status — the Moderator's
post-processing always sets `"active"`, the coders leave the status
untouched, the Reviewer's sets `"completed"` or `"preparing"`, and a
successful pass through the executor returns the acting agent's status
unchanged. -/
theorem executor_error_isolation (role e : String) (dt : ℚ) (m : AgentMetrics)
    (s : CompetitionState) :
    ((agent_call role (.error e) dt m s).2.error_log
        = s.error_log ++ [role ++ " Error: " ++ e]
      ∧ (agent_call role (.error e) dt m s).2.competition_status = "error"
      ∧ (agent_call role (.error e) dt m s).2.problems = s.problems
      ∧ (agent_call role (.error e) dt m s).2.current_problem = s.current_problem
      ∧ (agent_call role (.error e) dt m s).2.context = s.context
      ∧ (agent_call role (.error e) dt m s).2.current_round = s.current_round
      ∧ (agent_call role (.error e) dt m s).2.max_rounds = s.max_rounds
      ∧ (agent_call role (.error e) dt m s).2.coderA_personality = s.coderA_personality
      ∧ (agent_call role (.error e) dt m s).2.coderB_personality = s.coderB_personality
      ∧ (agent_call role (.error e) dt m s).2.coderA_submissions = s.coderA_submissions
      ∧ (agent_call role (.error e) dt m s).2.coderB_submissions = s.coderB_submissions
      ∧ (agent_call role (.error e) dt m s).2.coderA_Score = s.coderA_Score
      ∧ (agent_call role (.error e) dt m s).2.coderB_Score = s.coderB_Score
      ∧ (agent_call role (.error e) dt m s).2.reviewer_comments = s.reviewer_comments
      ∧ (agent_call role (.error e) dt m s).2.round_winner = s.round_winner
      ∧ (agent_call role (.error e) dt m s).2.overall_winner = s.overall_winner
      ∧ (agent_call role (.error e) dt m s).2.metrics = s.metrics
      ∧ (agent_call role (.error e) dt m s).2.next_agent = s.next_agent
      ∧ (agent_call role (.error e) dt m s).2.memory_thread_id = s.memory_thread_id
      ∧ (agent_call role (.error e) dt m s).2.memory_checkpoint_id = s.memory_checkpoint_id
      ∧ (agent_call role (.error e) dt m s).2.conversation_context = s.conversation_context
      ∧ (agent_call role (.error e) dt m s).2.last_coderA_submission = s.last_coderA_submission
      ∧ (agent_call role (.error e) dt m s).2.last_coderB_submission = s.last_coderB_submission)
    ∧ (∀ (ts : String) (p : CodingProblem) (s0 : CompetitionState),
        (moderator_post ts p s0).competition_status = "active")
    ∧ (∀ (ts : String) (sub : CodeSubmission) (s0 : CompetitionState),
        (coderA_post ts sub s0).competition_status = s0.competition_status)
    ∧ (∀ (ts : String) (sub : CodeSubmission) (s0 : CompetitionState),
        (coderB_post ts sub s0).competition_status = s0.competition_status)
    ∧ (∀ (ts : String) (r : CodeReview) (s0 : CompetitionState),
        (reviewer_post_process ts r s0).competition_status = "completed"
        ∨ (reviewer_post_process ts r s0).competition_status = "preparing")
    ∧ (∀ (role2 : String) (s2 : CompetitionState) (dt2 : ℚ) (m2 : AgentMetrics)
        (s0 : CompetitionState),
        (agent_call role2 (.ok s2) dt2 m2 s0).2.competition_status
          = s2.competition_status) := by
  exact ⟨⟨rfl, rfl, rfl, rfl, rfl, rfl, rfl, rfl, rfl, rfl, rfl, rfl, rfl, rfl,
      rfl, rfl, rfl, rfl, rfl, rfl, rfl, rfl, rfl⟩,
    fun ts p s0 => rfl,
    fun ts sub s0 => rfl,
    fun ts sub s0 => rfl,
    fun ts r s0 => status_after_review ts r s0,
    fun role2 s2 dt2 m2 s0 => rfl⟩

/-- C6: every review the Reviewer folds into the running totals has passed
the Pydantic parse, so its six sub-scores are within the declared bounds
(correctness in [0,5], efficiency in [0,3], quality in [0,2]); an
out-of-range model output fails the parse, and the failed parse makes the
whole reviewer turn an executor-level failure that leaves both running
totals unchanged and flips the status to `"error"` — no score folding
occurs. -/
theorem review_validation_gate (ts : String) (raw : CodeReview) (dt : ℚ)
    (m : AgentMetrics) (s : CompetitionState) :
    (∀ r, parse_review raw = some r → scoreBounds r)
    ∧ (¬ scoreBounds raw → parse_review raw = none)
    ∧ (parse_review raw = none →
        (reviewer_turn ts (.ok raw) dt m s).2.coderA_Score = s.coderA_Score
        ∧ (reviewer_turn ts (.ok raw) dt m s).2.coderB_Score = s.coderB_Score
        ∧ (reviewer_turn ts (.ok raw) dt m s).2.competition_status = "error") := by
  refine ⟨?_, ?_, ?_⟩
  · intro r h
    obtain ⟨hr, hb⟩ := parse_review_sound raw r h
    subst hr
    exact hb
  · intro hnb
    unfold parse_review
    exact if_neg (fun hc => hnb hc.1)
  · intro h
    simp [reviewer_turn, reviewer_act, h, agent_call]

/-- C6 witness: the in-bounds sample review parses and satisfies the
bounds; the out-of-range review (correctness 6) is rejected and a reviewer
turn fed with it leaves the CoderA total of the initial state unchanged. -/
theorem review_validation_gate_witness :
    scoreBounds sampleReview
    ∧ parse_review badReview = none
    ∧ (reviewer_turn "ts" (.ok badReview) 0 initialMetrics sampleState).2.coderA_Score
        = sampleState.coderA_Score :=
  ⟨(review_validation_gate "ts" sampleReview 0 initialMetrics sampleState).1
      sampleReview (by decide),
   (review_validation_gate "ts" badReview 0 initialMetrics sampleState).2.1
      (by decide),
   ((review_validation_gate "ts" badReview 0 initialMetrics sampleState).2.2
      ((review_validation_gate "ts" badReview 0 initialMetrics sampleState).2.1
        (by decide))).1⟩

/-- C9: the per-agent `success_rate` metric is recomputed only inside the
executor's exception handler — a successful turn advances the call counter
but leaves `success_rate` untouched — so after one failing turn followed by
one successful turn the snapshot returned by `get_metrics` reports
`success_rate = 0` alongside `calls = 2` and `errors = 1`, a stale value
different from `(calls - errors) / calls = 1/2`. -/
theorem success_rate_staleness :
    (∀ (role : String) (s2 s : CompetitionState) (dt : ℚ) (m : AgentMetrics),
      (agent_call role (.ok s2) dt m s).1.success_rate = m.success_rate
      ∧ (agent_call role (.ok s2) dt m s).1.calls = m.calls + 1
      ∧ (agent_call role (.ok s2) dt m s).1.errors = m.errors)
    ∧ ((get_metrics "reviewer"
          (agent_call "reviewer" (.ok sampleState) 0
            (agent_call "reviewer" (.error "boom") 0 initialMetrics sampleState).1
            sampleState).1).success_rate = 0
      ∧ (get_metrics "reviewer"
          (agent_call "reviewer" (.ok sampleState) 0
            (agent_call "reviewer" (.error "boom") 0 initialMetrics sampleState).1
            sampleState).1).calls = 2
      ∧ (get_metrics "reviewer"
          (agent_call "reviewer" (.ok sampleState) 0
            (agent_call "reviewer" (.error "boom") 0 initialMetrics sampleState).1
            sampleState).1).errors = 1
      ∧ (0 : ℚ) ≠ (((2 : ℚ) - 1) / 2)) := by
  constructor
  · intro role s2 s dt m
    exact ⟨rfl, rfl, rfl⟩
  · refine ⟨?_, rfl, rfl, by norm_num⟩
    simp [agent_call, get_metrics, initialMetrics]

/-- Helper: the `tool_calls` counter threaded through the
`_handle_tool_calls` loop ends at its initial value plus the number of
requested calls whose tool is found and returns normally. -/
theorem handle_tool_calls_count (tool_map : String → Option ToolFun)
    (calls : List ToolCallRequest) : ∀ n : Nat,
    (handle_tool_calls tool_map calls n).2 =
      n + (calls.filter (toolSucceeds tool_map)).length := by
  induction calls with
  | nil => intro n; simp [handle_tool_calls]
  | cons c rest ih =>
      intro n
      simp only [handle_tool_calls]
      cases hmap : tool_map c.name with
      | none =>
          simp [execute_tool, hmap, toolSucceeds, List.filter_cons, ih]
      | some f =>
          cases hres : f c.args with
          | ok r =>
              simp [execute_tool, hmap, hres, toolSucceeds, List.filter_cons, ih]
              omega
          | error e2 =>
              simp [execute_tool, hmap, hres, toolSucceeds, List.filter_cons, ih]

/-- C10: `_execute_tool` increments the `tool_calls` counter exactly when
the named tool exists in the agent's tool map and its invocation returns
normally; a call naming an absent tool, or a tool whose invocation raises,
returns an error-describing `ToolMessage` (the function is total — nothing
propagates) and leaves the counter alone; consequently, over any sequence
of dispatched tool calls the counter counts exactly the successful
invocations. -/
theorem tool_call_accounting (tool_map : String → Option ToolFun)
    (tool_name tool_args : String) (tool_call_id : Option String) (n : Nat)
    (calls : List ToolCallRequest) :
    (tool_map tool_name = none →
      execute_tool tool_map tool_name tool_args tool_call_id n =
        ({ content := "Error: Tool \x27" ++ tool_name ++ "\x27 not found",
           tool_call_id := tool_call_id }, n))
    ∧ (∀ f e, tool_map tool_name = some f → f tool_args = .error e →
      execute_tool tool_map tool_name tool_args tool_call_id n =
        ({ content := "Error executing " ++ tool_name ++ ": " ++ e,
           tool_call_id := tool_call_id }, n))
    ∧ (∀ f r, tool_map tool_name = some f → f tool_args = .ok r →
      execute_tool tool_map tool_name tool_args tool_call_id n =
        ({ content := r, tool_call_id := tool_call_id }, n + 1))
    ∧ (handle_tool_calls tool_map calls n).2 =
        n + (calls.filter (toolSucceeds tool_map)).length := by
  refine ⟨?_, ?_, ?_, handle_tool_calls_count tool_map calls n⟩
  · intro h
    simp [execute_tool, h]
  · intro f e hf he
    simp [execute_tool, hf, he]
  · intro f r hf hr
    simp [execute_tool, hf, hr]

/-- A concrete tool map for evaluating `execute_tool`: tool `t1` succeeds,
tool `t2` raises, and no other name is bound. -/
def sampleToolMap : String → Option ToolFun := fun n =>
  if n = "t1" then some (fun _ => .ok "42")
  else if n = "t2" then some (fun _ => .error "boom")
  else none

/-- C10 witness: under `sampleToolMap`, an unknown tool and a raising tool
return error messages without bumping the counter, while the succeeding
tool bumps it by one. -/
theorem tool_call_accounting_witness :
    execute_tool sampleToolMap "t0" "args" none 0 =
      ({ content := "Error: Tool \x27t0\x27 not found", tool_call_id := none }, 0)
    ∧ execute_tool sampleToolMap "t2" "args" none 0 =
      ({ content := "Error executing t2: boom", tool_call_id := none }, 0)
    ∧ execute_tool sampleToolMap "t1" "args" none 0 =
      ({ content := "42", tool_call_id := none }, 1) :=
  ⟨(tool_call_accounting sampleToolMap "t0" "args" none 0 []).1 rfl,
   (tool_call_accounting sampleToolMap "t2" "args" none 0 []).2.1
      (fun _ => .error "boom") "boom" rfl rfl,
   (tool_call_accounting sampleToolMap "t1" "args" none 0 []).2.2.1
      (fun _ => .ok "42") "42" rfl rfl⟩

end CodingComp
